import Mathlib

/-
Verification of the Velane proof-anchoring pipeline
(`src/proofs/proofs.service.ts`, `src/proofs/proofs.controller.ts`).

The development shallowly embeds the pipeline: bytes are `List Nat`
(each entry a byte value), machine words are `Nat` reduced mod 2^32,
and every external collaborator (ledger RPC, environment variables,
the relational store) is an oracle recorded in an `Env` structure.
Side effects are tracked as an explicit effect trace.
-/

namespace Velane

/-! ### 32-bit word arithmetic (SHA-256 primitives)

The service computes `sha256` via the `@noble/hashes` library; the
function below is the standard FIPS 180-4 SHA-256 over byte lists,
with words as `Nat` mod 2^32. -/

def M32 : Nat := 4294967296

def w32 (n : Nat) : Nat := n % M32

def rotr32 (n x : Nat) : Nat := w32 ((x >>> n) ||| (x <<< (32 - n)))

def bigSigma0 (x : Nat) : Nat := (rotr32 2 x) ^^^ (rotr32 13 x) ^^^ (rotr32 22 x)

def bigSigma1 (x : Nat) : Nat := (rotr32 6 x) ^^^ (rotr32 11 x) ^^^ (rotr32 25 x)

def smallSigma0 (x : Nat) : Nat := (rotr32 7 x) ^^^ (rotr32 18 x) ^^^ (x >>> 3)

def smallSigma1 (x : Nat) : Nat := (rotr32 17 x) ^^^ (rotr32 19 x) ^^^ (x >>> 10)

def chF (x y z : Nat) : Nat := (x &&& y) ^^^ ((x ^^^ 4294967295) &&& z)

def majF (x y z : Nat) : Nat :=
  Nat.xor (Nat.xor (Nat.land x y) (Nat.land x z)) (Nat.land y z)

def K256 : List Nat :=
  [1116352408, 1899447441, 3049323471, 3921009573, 961987163,
   1508970993, 2453635748, 2870763221, 3624381080, 310598401,
   607225278, 1426881987, 1925078388, 2162078206, 2614888103,
   3248222580, 3835390401, 4022224774, 264347078, 604807628,
   770255983, 1249150122, 1555081692, 1996064986, 2554220882,
   2821834349, 2952996808, 3210313671, 3336571891, 3584528711,
   113926993, 338241895, 666307205, 773529912, 1294757372,
   1396182291, 1695183700, 1986661051, 2177026350, 2456956037,
   2730485921, 2820302411, 3259730800, 3345764771, 3516065817,
   3600352804, 4094571909, 275423344, 430227734, 506948616,
   659060556, 883997877, 958139571, 1322822218, 1537002063,
   1747873779, 1955562222, 2024104815, 2227730452, 2361852424,
   2428436474, 2756734187, 3204031479, 3329325298]

structure H8 where
  a : Nat
  b : Nat
  c : Nat
  d : Nat
  e : Nat
  f : Nat
  g : Nat
  h : Nat
deriving DecidableEq

def initH : H8 :=
  { a := 1779033703, b := 3144134277, c := 1013904242, d := 2773480762,
    e := 1359893119, f := 2600822924, g := 528734635, h := 1541459225 }

def roundStep (s : H8) (kw : Nat × Nat) : H8 :=
  let t1 := w32 (s.h + bigSigma1 s.e + chF s.e s.f s.g + kw.1 + kw.2)
  let t2 := w32 (bigSigma0 s.a + majF s.a s.b s.c)
  { a := w32 (t1 + t2), b := s.a, c := s.b, d := s.c,
    e := w32 (s.d + t1), f := s.e, g := s.f, h := s.g }

def bytesToWords : List Nat → List Nat
  | b0 :: b1 :: b2 :: b3 :: rest =>
      (((b0 * 256 + b1) * 256 + b2) * 256 + b3) :: bytesToWords rest
  | _ => []

def extendSchedule (start : Array Nat) : Array Nat :=
  (List.range 48).foldl
    (fun arr i =>
      let t := i + 16
      let v := w32 (smallSigma1 (arr.getD (t - 2) 0) + arr.getD (t - 7) 0 +
                    smallSigma0 (arr.getD (t - 15) 0) + arr.getD (t - 16) 0)
      arr.push v)
    start

def compressBlock (s : H8) (block : List Nat) : H8 :=
  let w := extendSchedule (bytesToWords block).toArray
  let pairs := (List.range 64).map (fun i => (K256.getD i 0, w.getD i 0))
  let t := pairs.foldl roundStep s
  { a := w32 (s.a + t.a), b := w32 (s.b + t.b), c := w32 (s.c + t.c),
    d := w32 (s.d + t.d), e := w32 (s.e + t.e), f := w32 (s.f + t.f),
    g := w32 (s.g + t.g), h := w32 (s.h + t.h) }

def be4 (n : Nat) : List Nat :=
  [(n >>> 24) &&& 255, (n >>> 16) &&& 255, (n >>> 8) &&& 255, n &&& 255]

def be8 (n : Nat) : List Nat :=
  [(n >>> 56) &&& 255, (n >>> 48) &&& 255, (n >>> 40) &&& 255, (n >>> 32) &&& 255,
   (n >>> 24) &&& 255, (n >>> 16) &&& 255, (n >>> 8) &&& 255, n &&& 255]

def padZeros (len : Nat) : Nat := (120 - ((len + 1) % 64)) % 64

def sha256 (msg : List Nat) : List Nat :=
  let padded := msg ++ [128] ++ List.replicate (padZeros msg.length) 0 ++
                be8 (msg.length * 8)
  let nBlocks := padded.length / 64
  let blocks := (List.range nBlocks).map (fun i => (padded.drop (64 * i)).take 64)
  let final := blocks.foldl compressBlock initH
  ([final.a, final.b, final.c, final.d, final.e, final.f, final.g, final.h].map be4).flatten

/-! ### Hex, UTF-8 and base58 codecs -/

/-- The lowercase hex alphabet, as produced by `Buffer.toString("hex")`. -/
def hexAlphabet : List Char := "0123456789abcdef".toList

def hexDigit (n : Nat) : Char := hexAlphabet.getD (n % 16) '0'

/-- Lowercase hex encoding of a byte list (`Buffer.from(bytes).toString("hex")`). -/
def hexOfBytes (bs : List Nat) : String :=
  String.mk ((bs.map (fun b => [hexDigit (b / 16), hexDigit b])).flatten)

/-- UTF-8 encoding of one character (what `TextEncoder().encode` does). -/
def utf8Char (c : Char) : List Nat :=
  let n := c.toNat
  if n < 128 then [n]
  else if n < 2048 then [192 ||| (n >>> 6), 128 ||| (n &&& 63)]
  else if n < 65536 then
    [224 ||| (n >>> 12), 128 ||| ((n >>> 6) &&& 63), 128 ||| (n &&& 63)]
  else
    [240 ||| (n >>> 18), 128 ||| ((n >>> 12) &&& 63),
     128 ||| ((n >>> 6) &&& 63), 128 ||| (n &&& 63)]

def utf8Encode (s : String) : List Nat := (s.toList.map utf8Char).flatten

/-- Bitcoin base58 alphabet used by the `bs58` package. -/
def base58Alphabet : List Char :=
  "123456789ABCDEFGHJKLMNPQRSTUVWXYZabcdefghijkmnopqrstuvwxyz".toList

def b58Index (c : Char) : Option Nat := base58Alphabet.findIdx? (fun d => d == c)

def natToBytesBEAux : Nat → Nat → List Nat
  | 0, _ => []
  | _ + 1, 0 => []
  | fuel + 1, n + 1 => natToBytesBEAux fuel ((n + 1) / 256) ++ [(n + 1) % 256]

/-- Big-endian base-256 digits of a number (no leading zero bytes); the
fuel argument only bounds the recursion depth. -/
def natToBytesBE (n : Nat) : List Nat := natToBytesBEAux n n

/-- Model of `bs58.decode`: fails (throws, here `none`) on any character outside the
alphabet; otherwise big-number base-58 conversion with one leading zero
byte per leading '1'. -/
def base58Decode (s : String) : Option (List Nat) :=
  let cs := s.toList
  if cs.any (fun c => (b58Index c).isNone) then none
  else
    let val := cs.foldl (fun acc c => acc * 58 + (b58Index c).getD 0) 0
    let zeros := (cs.takeWhile (fun c => c == '1')).length
    some (List.replicate zeros 0 ++ natToBytesBE val)

/-! ### The proof request DTO (`dto/init-proof.dto.ts`) -/

structure InitProofDto where
  txSignature : String
  txBytesBase58 : String
  runtimeProofHash : String
  timestamp : Int
  runtimeId : Option String
  userId : String
  batchCount : Option Int
deriving DecidableEq

/-! ### Hash verifier (`recomputeRuntimeHash`, proofs.service.ts lines 111-121) -/

/-- The service's `recomputeRuntimeHash(txBytes, timestamp, runtimeId)`: hex of the SHA-256
of `txBytes ++ utf8("|ts:" ++ timestamp ++ "|rid:" ++ (runtimeId ?? ""))`. -/
def recomputeRuntimeHash (txBytes : List Nat) (timestamp : Int)
    (runtimeId : Option String) : String :=
  let input := txBytes ++
    utf8Encode ("|ts:" ++ toString timestamp ++ "|rid:" ++ runtimeId.getD "")
  hexOfBytes (sha256 input)

/-! ### Ledger collaborator model

External ledger, environment-variable and store interactions are modelled
as an oracle `Env`.  Transaction submissions either confirm or are rejected
with a `LedgerErr`; `logs` is `none` when the rejection exposes no working
`getLogs` capability (absent, returning `undefined`, or itself throwing),
mirroring the service's `e?.getLogs?.()` guards. -/

structure LedgerErr where
  message : String
  logs : Option (List String)
deriving DecidableEq

/-- A token pool entry as listed by `getTokenPoolInfos`; `valid` models
whether `selectTokenPoolInfo` would accept it. -/
structure Pool where
  poolId : Nat
  valid : Bool
deriving DecidableEq

/-- Selection policy `selectTokenPoolInfo`: deterministic, first valid candidate of the
provider's listing (returns `undefined`, here `none`, when no pool is valid). -/
def selectTokenPoolInfo (ps : List Pool) : Option Pool := ps.find? (fun p => p.valid)

structure Env where
  payerSecret : Option String
  masterMintPubkey : Option String
  masterMintAuthoritySecret : Option String
  txLookup : String → Bool
  generatedMintPk : String
  mintTxResult : Except LedgerErr String
  poolsBefore : List Pool
  createPoolResult : Except LedgerErr Unit
  poolsAfter : List Pool
  ataMintResult : Except LedgerErr Unit
  compressResult : Except LedgerErr String
  memoResult : Except LedgerErr String

/-! ### Observable effects -/

structure ProofRow where
  txSignature : String
  txBytesBase58 : String
  runtimeProofHash : String
  userId : String
  runtimeId : Option String
  timestampMs : Int
  mintAddress : String
  mintTxId : String
  compressedTxId : String
  chain : String
deriving DecidableEq

inductive Effect where
  | readTransaction (sig : String)
  | getStateTrees
  | getRent
  | getBlockhash
  | getPools
  | submitTx (kind : String)
  | compressCall (amount : Int)
  | dbEnsureTable
  | dbInsert (row : ProofRow)
deriving DecidableEq

/-- Effects that send a transaction to the ledger (`sendAndConfirmTx`
submissions, and the `compress` SDK call which submits one internally). -/
def Effect.isSubmission : Effect → Bool
  | .submitTx _ => true
  | .compressCall _ => true
  | _ => false

/-! ### Pipeline result -/

structure OkPayload where
  mint : String
  mintTxId : String
  compressedTxId : String
  metaTxHash : String
  metaRuntimeProofHash : String
  metaUserId : String
  metaTimestamp : Int
  metaRuntimeId : String
  metaChain : String
deriving DecidableEq

inductive InitOutcome where
  | ok (payload : OkPayload)
  | err (code : String)
  | thrown (msg : String)
deriving DecidableEq

/-! ### Pipeline stages (initAndMint, proofs.service.ts lines 130-424) -/

/-- The amount clamp `Math.max(1, Math.min(50, Number(dto.batchCount ?? 1)))` (line 285). -/
def amountOf (batchCount : Option Int) : Int :=
  max 1 (min 50 (batchCount.getD 1))

/-- The benign-rejection classifier of the ATA+mint catch handler
(line 324): the case-insensitive regex
`/already in use|custom program error: 0x0|Account already initialized/i`
tested against the joined log lines, i.e. a case-insensitive substring
test for each of the three signatures. -/
def lowerChar (c : Char) : Char :=
  if 'A' ≤ c ∧ c ≤ 'Z' then Char.ofNat (c.toNat + 32) else c

def lowerStr (s : String) : String := String.mk (s.toList.map lowerChar)

def startsWithChars : List Char → List Char → Bool
  | _, [] => true
  | [], _ :: _ => false
  | x :: xs, y :: ys => y == x && startsWithChars xs ys

def containsChars (pat : List Char) : List Char → Bool
  | [] => startsWithChars [] pat
  | h :: t => startsWithChars (h :: t) pat || containsChars pat t

def containsCI (hay pat : String) : Bool :=
  containsChars (lowerStr pat).toList (lowerStr hay).toList

def isExpectedAtaError (joined : String) : Bool :=
  containsCI joined "already in use" ||
  containsCI joined "custom program error: 0x0" ||
  containsCI joined "Account already initialized"

/-- Mint acquisition (lines 153-247): adopt the configured master mint
(requiring the mint-authority secret), else create a fresh mint in one
submitted transaction.  Returns the mint address and the fresh mint
transaction id (`none` when a master mint was adopted). -/
def mintStage (env : Env) : List Effect × Except String (String × Option String) :=
  match env.masterMintPubkey with
  | some mpk =>
    match env.masterMintAuthoritySecret with
    | none => ([], .error "MINT_AUTHORITY_MISSING")
    | some _ => ([], .ok (mpk, none))
  | none =>
    let effs : List Effect := [.getRent, .getBlockhash, .submitTx "mint"]
    match env.mintTxResult with
    | .error _ => (effs, .error "MINT_TX_FAILED")
    | .ok mId => (effs, .ok (env.generatedMintPk, some mId))

/-- Pool acquisition (lines 249-282): query pools; when none is valid,
submit a creation transaction and re-query only after the submission
confirmed; a rejected creation returns `CREATE_POOL_FAILED` directly. -/
def poolStage (env : Env) : List Effect × Except String (Option Pool) :=
  match selectTokenPoolInfo env.poolsBefore with
  | some p => ([.getPools], .ok (some p))
  | none =>
    let effs : List Effect := [.getPools, .getBlockhash, .submitTx "createPool"]
    match env.createPoolResult with
    | .error _ => (effs, .error "CREATE_POOL_FAILED")
    | .ok _ => (effs ++ [.getPools], .ok (selectTokenPoolInfo env.poolsAfter))

/-- ATA-creation-plus-mint submission and its catch handler
(lines 292-337): a rejection is fatal exactly when log lines were
retrieved and do not match the benign classifier; a rejection with no
retrievable logs falls through and the pipeline proceeds. -/
def ataStage (env : Env) : List Effect × Except String Unit :=
  let effs : List Effect := [.getBlockhash, .submitTx "ataMint"]
  match env.ataMintResult with
  | .ok _ => (effs, .ok ())
  | .error e =>
    match e.logs with
    | none => (effs, .ok ())
    | some logLines =>
      if isExpectedAtaError (String.intercalate "\n" logLines) then (effs, .ok ())
      else (effs, .error "PREPARE_ATA_OR_MINT_FAILED")

def mkRow (dto : InitProofDto) (mintPk mintTxId compressedTxId : String) : ProofRow :=
  { txSignature := dto.txSignature, txBytesBase58 := dto.txBytesBase58,
    runtimeProofHash := dto.runtimeProofHash, userId := dto.userId,
    runtimeId := dto.runtimeId, timestampMs := dto.timestamp,
    mintAddress := mintPk, mintTxId := mintTxId,
    compressedTxId := compressedTxId, chain := "solana" }

def mkPayload (dto : InitProofDto) (mintPk mintTxId compressedTxId : String) :
    OkPayload :=
  { mint := mintPk, mintTxId := mintTxId, compressedTxId := compressedTxId,
    metaTxHash := dto.txSignature, metaRuntimeProofHash := dto.runtimeProofHash,
    metaUserId := dto.userId, metaTimestamp := dto.timestamp,
    metaRuntimeId := dto.runtimeId.getD "", metaChain := "solana" }

/-- The pipeline from the state-tree fetch (line 150) to the insert and
return (lines 390-423), i.e. everything after the three input guards. -/
def pipelineCore (env : Env) (dto : InitProofDto) : InitOutcome × List Effect :=
  let tr1 : List Effect := [.getStateTrees]
  match mintStage env with
  | (effs, .error code) => (.err code, tr1 ++ effs)
  | (effs, .ok (mintPk, mintTxIdOpt)) =>
    let tr2 := tr1 ++ effs
    match poolStage env with
    | (effs2, .error code) => (.err code, tr2 ++ effs2)
    | (effs2, .ok _pool) =>
      let tr3 := tr2 ++ effs2
      let amount := amountOf dto.batchCount
      match ataStage env with
      | (effs3, .error code) => (.err code, tr3 ++ effs3)
      | (effs3, .ok _) =>
        let tr4 := tr3 ++ effs3 ++ [.compressCall amount]
        match env.compressResult with
        | .error _ => (.err "COMPRESS_TX_FAILED", tr4)
        | .ok cId =>
          let tr5 := tr4 ++ [.getBlockhash, .submitTx "memo", .dbEnsureTable]
          let row := mkRow dto mintPk (mintTxIdOpt.getD "") cId
          (.ok (mkPayload dto mintPk (mintTxIdOpt.getD "") cId),
           tr5 ++ [.dbInsert row])

/-- The orchestrator `initAndMint` (lines 130-424): load the payer, read the referenced
ledger transaction, decode the claimed bytes, verify the fingerprint,
then run the mint/pool/ata/compress/persist pipeline. -/
def runInitAndMint (env : Env) (dto : InitProofDto) : InitOutcome × List Effect :=
  match env.payerSecret with
  | none => (.thrown "PAYER_SECRET_BASE58 missing", [])
  | some _ =>
    let tr0 : List Effect := [.readTransaction dto.txSignature]
    if env.txLookup dto.txSignature then
      match base58Decode dto.txBytesBase58 with
      | none => (.err "INVALID_TX_BYTES_BASE58", tr0)
      | some txBytes =>
        if recomputeRuntimeHash txBytes dto.timestamp dto.runtimeId =
            dto.runtimeProofHash then
          let res := pipelineCore env dto
          (res.1, tr0 ++ res.2)
        else (.err "RUNTIME_HASH_MISMATCH", tr0)
    else (.err "TX_NOT_FOUND", tr0)

/-! ### Stateful pool provisioning (`ensurePool`, spec 4.3 / lines 249-282)

The same query-before-create logic as `poolStage`, written as a state
transformer over the ledger's pool listing for the mint: a confirmed
creation appends the new pool, so sequential re-runs observe it.  The
final `Bool` reports whether a creation transaction was submitted. -/

def ensurePool (createResult : Except LedgerErr Unit) (newPool : Pool)
    (pools : List Pool) : Except String (Option Pool) × List Pool × Bool :=
  match selectTokenPoolInfo pools with
  | some p => (.ok (some p), pools, false)
  | none =>
    match createResult with
    | .error _ => (.error "CREATE_POOL_FAILED", pools, true)
    | .ok _ =>
      let pools2 := pools ++ [newPool]
      (.ok (selectTokenPoolInfo pools2), pools2, true)

/-! ### The retrieve endpoint (proofs.controller.ts lines 44-59,
proofs.service.ts lines 87-109)

The store is modelled as the list of persisted rows together with their
`created_at` stamps; `ORDER BY created_at DESC LIMIT 200` is a descending
insertion sort followed by `take 200`. -/

structure StoredRow where
  row : ProofRow
  createdAt : Nat
deriving DecidableEq

def insertDescBy (r : StoredRow) : List StoredRow → List StoredRow
  | [] => [r]
  | x :: xs =>
    if r.createdAt ≤ x.createdAt then x :: insertDescBy r xs else r :: x :: xs

def sortByCreatedAtDesc (l : List StoredRow) : List StoredRow :=
  l.foldr insertDescBy []

/-- Query `retrieveProofsByUser`: the user's rows, newest first, capped at 200. -/
def retrieveProofsByUser (db : List StoredRow) (userId : String) :
    List StoredRow :=
  (sortByCreatedAtDesc (db.filter (fun r => r.row.userId == userId))).take 200

inductive RetrieveOutcome where
  | ok (proofs : List StoredRow)
  | badRequest (code : String)
deriving DecidableEq

/-- The `POST /proofs/retrieve` handler: the wallet must be a present
string of length at least 20 (`!wallet || typeof !== "string" || length < 20`),
else 400 `INVALID_WALLET`. -/
def retrieve (wallet : Option String) (db : List StoredRow) : RetrieveOutcome :=
  match wallet with
  | none => .badRequest "INVALID_WALLET"
  | some w =>
    if w.length < 20 then .badRequest "INVALID_WALLET"
    else .ok (retrieveProofsByUser db w)

/-! ### Guard-phase helper lemmas -/

theorem runInit_noPayer (env : Env) (dto : InitProofDto)
    (hp : env.payerSecret = none) :
    runInitAndMint env dto = (.thrown "PAYER_SECRET_BASE58 missing", []) := by
  simp [runInitAndMint, hp]

theorem runInit_txNotFound (env : Env) (dto : InitProofDto) (s : String)
    (hp : env.payerSecret = some s)
    (hl : env.txLookup dto.txSignature = false) :
    runInitAndMint env dto =
      (.err "TX_NOT_FOUND", [.readTransaction dto.txSignature]) := by
  simp [runInitAndMint, hp, hl]

theorem runInit_badBase58 (env : Env) (dto : InitProofDto) (s : String)
    (hp : env.payerSecret = some s)
    (hl : env.txLookup dto.txSignature = true)
    (hd : base58Decode dto.txBytesBase58 = none) :
    runInitAndMint env dto =
      (.err "INVALID_TX_BYTES_BASE58", [.readTransaction dto.txSignature]) := by
  simp [runInitAndMint, hp, hl, hd]

theorem runInit_mismatch (env : Env) (dto : InitProofDto) (s : String)
    (txBytes : List Nat)
    (hp : env.payerSecret = some s)
    (hl : env.txLookup dto.txSignature = true)
    (hd : base58Decode dto.txBytesBase58 = some txBytes)
    (hne : recomputeRuntimeHash txBytes dto.timestamp dto.runtimeId ≠
      dto.runtimeProofHash) :
    runInitAndMint env dto =
      (.err "RUNTIME_HASH_MISMATCH", [.readTransaction dto.txSignature]) := by
  simp [runInitAndMint, hp, hl, hd, hne]

theorem runInit_pass (env : Env) (dto : InitProofDto) (s : String)
    (txBytes : List Nat)
    (hp : env.payerSecret = some s)
    (hl : env.txLookup dto.txSignature = true)
    (hd : base58Decode dto.txBytesBase58 = some txBytes)
    (hh : recomputeRuntimeHash txBytes dto.timestamp dto.runtimeId =
      dto.runtimeProofHash) :
    runInitAndMint env dto =
      ((pipelineCore env dto).1,
        .readTransaction dto.txSignature :: (pipelineCore env dto).2) := by
  simp [runInitAndMint, hp, hl, hd, hh]

/-! ### Stage effect-shape lemmas -/

theorem mintStage_fst (env : Env) :
    (mintStage env).1 = [] ∨
    (mintStage env).1 = [.getRent, .getBlockhash, .submitTx "mint"] := by
  unfold mintStage
  rcases env.masterMintPubkey with _ | mpk
  · rcases env.mintTxResult with e | m <;> simp
  · rcases env.masterMintAuthoritySecret with _ | sec <;> simp

theorem poolStage_fst (env : Env) :
    (poolStage env).1 = [.getPools] ∨
    (poolStage env).1 = [.getPools, .getBlockhash, .submitTx "createPool"] ∨
    (poolStage env).1 =
      [.getPools, .getBlockhash, .submitTx "createPool", .getPools] := by
  unfold poolStage
  rcases selectTokenPoolInfo env.poolsBefore with _ | p
  · rcases env.createPoolResult with e | u <;> simp
  · simp

theorem ataStage_fst (env : Env) :
    (ataStage env).1 = [.getBlockhash, .submitTx "ataMint"] := by
  unfold ataStage
  rcases env.ataMintResult with e | u
  · rcases hL : e.logs with _ | logLines
    · simp [hL]
    · simp only [hL]
      split <;> rfl
  · simp

theorem dbInsert_not_mem_mintStage (env : Env) (row : ProofRow) :
    Effect.dbInsert row ∉ (mintStage env).1 := by
  rcases mintStage_fst env with h | h <;> simp [h]

theorem compressCall_not_mem_mintStage (env : Env) (a : Int) :
    Effect.compressCall a ∉ (mintStage env).1 := by
  rcases mintStage_fst env with h | h <;> simp [h]

theorem dbInsert_not_mem_poolStage (env : Env) (row : ProofRow) :
    Effect.dbInsert row ∉ (poolStage env).1 := by
  rcases poolStage_fst env with h | h | h <;> simp [h]

theorem compressCall_not_mem_poolStage (env : Env) (a : Int) :
    Effect.compressCall a ∉ (poolStage env).1 := by
  rcases poolStage_fst env with h | h | h <;> simp [h]

theorem dbInsert_not_mem_ataStage (env : Env) (row : ProofRow) :
    Effect.dbInsert row ∉ (ataStage env).1 := by
  simp [ataStage_fst env]

theorem compressCall_not_mem_ataStage (env : Env) (a : Int) :
    Effect.compressCall a ∉ (ataStage env).1 := by
  simp [ataStage_fst env]

/-- Characterization of persistence in the post-guard pipeline: an insert
effect occurs exactly when the compress call happened and the ledger
confirmed it, and no failing run performs an insert. -/
theorem pipelineCore_char (env : Env) (dto : InitProofDto) :
    ((∃ row, Effect.dbInsert row ∈ (pipelineCore env dto).2) ↔
      ((∃ a, Effect.compressCall a ∈ (pipelineCore env dto).2) ∧
        ∃ cid, env.compressResult = Except.ok cid)) ∧
    (∀ code, (pipelineCore env dto).1 = .err code →
      ∀ row, Effect.dbInsert row ∉ (pipelineCore env dto).2) := by
  have hm1 := dbInsert_not_mem_mintStage env
  have hm2 := compressCall_not_mem_mintStage env
  have hp1 := dbInsert_not_mem_poolStage env
  have hp2 := compressCall_not_mem_poolStage env
  have hq1 := dbInsert_not_mem_ataStage env
  have hq2 := compressCall_not_mem_ataStage env
  rcases hms : mintStage env with ⟨ef1, r1⟩
  rw [hms] at hm1 hm2
  rcases hpl : poolStage env with ⟨ef2, r2⟩
  rw [hpl] at hp1 hp2
  rcases hat : ataStage env with ⟨ef3, r3⟩
  rw [hat] at hq1 hq2
  unfold pipelineCore
  rw [hms, hpl, hat]
  rcases r1 with code1 | ⟨mintPk, mto⟩
  · simp_all
  · rcases r2 with code2 | poolOpt
    · simp_all
    · rcases r3 with code3 | u
      · simp_all
      · rcases hcr : env.compressResult with e | cid <;> simp_all

/-! ### Pipeline-shape helper lemmas -/

theorem pipelineCore_authority_missing (env : Env) (dto : InitProofDto)
    (mpk : String)
    (hm : env.masterMintPubkey = some mpk)
    (ha : env.masterMintAuthoritySecret = none) :
    pipelineCore env dto = (.err "MINT_AUTHORITY_MISSING", [.getStateTrees]) := by
  simp [pipelineCore, mintStage, hm, ha]

theorem pipelineCore_success_fresh (env : Env) (dto : InitProofDto)
    (mId : String) (p : Pool) (cId : String)
    (hm : env.masterMintPubkey = none)
    (hmt : env.mintTxResult = .ok mId)
    (hpb : selectTokenPoolInfo env.poolsBefore = some p)
    (hat : (ataStage env).2 = Except.ok ())
    (hcr : env.compressResult = .ok cId) :
    pipelineCore env dto =
      (.ok (mkPayload dto env.generatedMintPk mId cId),
       [.getStateTrees, .getRent, .getBlockhash, .submitTx "mint", .getPools,
        .getBlockhash, .submitTx "ataMint",
        .compressCall (amountOf dto.batchCount), .getBlockhash, .submitTx "memo",
        .dbEnsureTable, .dbInsert (mkRow dto env.generatedMintPk mId cId)]) := by
  have h1 := ataStage_fst env
  rcases hA : ataStage env with ⟨ef3, r3⟩
  rw [hA] at h1 hat
  dsimp only at h1 hat
  subst h1
  subst hat
  simp [pipelineCore, mintStage, poolStage, hm, hmt, hpb, hA, hcr]

theorem pipelineCore_success_master (env : Env) (dto : InitProofDto)
    (mpk asec : String) (p : Pool) (cId : String)
    (hm : env.masterMintPubkey = some mpk)
    (ha : env.masterMintAuthoritySecret = some asec)
    (hpb : selectTokenPoolInfo env.poolsBefore = some p)
    (hat : (ataStage env).2 = Except.ok ())
    (hcr : env.compressResult = .ok cId) :
    pipelineCore env dto =
      (.ok (mkPayload dto mpk "" cId),
       [.getStateTrees, .getPools, .getBlockhash, .submitTx "ataMint",
        .compressCall (amountOf dto.batchCount), .getBlockhash, .submitTx "memo",
        .dbEnsureTable, .dbInsert (mkRow dto mpk "" cId)]) := by
  have h1 := ataStage_fst env
  rcases hA : ataStage env with ⟨ef3, r3⟩
  rw [hA] at h1 hat
  dsimp only at h1 hat
  subst h1
  subst hat
  simp [pipelineCore, mintStage, poolStage, hm, ha, hpb, hA, hcr]

theorem pipelineCore_pool_failed (env : Env) (dto : InitProofDto)
    (ef1 : List Effect) (mintPk : String) (mto : Option String) (e : LedgerErr)
    (hms : mintStage env = (ef1, .ok (mintPk, mto)))
    (hpb : selectTokenPoolInfo env.poolsBefore = none)
    (hcp : env.createPoolResult = .error e) :
    pipelineCore env dto =
      (.err "CREATE_POOL_FAILED",
       [Effect.getStateTrees] ++ ef1 ++
         [.getPools, .getBlockhash, .submitTx "createPool"]) := by
  simp [pipelineCore, poolStage, hms, hpb, hcp]

theorem pipelineCore_ata_failed (env : Env) (dto : InitProofDto)
    (ef1 : List Effect) (mintPk : String) (mto : Option String) (p : Pool)
    (e : LedgerErr) (logLines : List String)
    (hms : mintStage env = (ef1, .ok (mintPk, mto)))
    (hpb : selectTokenPoolInfo env.poolsBefore = some p)
    (hat : env.ataMintResult = .error e)
    (hlg : e.logs = some logLines)
    (hcl : isExpectedAtaError (String.intercalate "\n" logLines) = false) :
    pipelineCore env dto =
      (.err "PREPARE_ATA_OR_MINT_FAILED",
       [Effect.getStateTrees] ++ ef1 ++
         [.getPools, .getBlockhash, .submitTx "ataMint"]) := by
  simp [pipelineCore, poolStage, ataStage, hms, hpb, hat, hlg, hcl]

theorem pipelineCore_compressCall_amount (env : Env) (dto : InitProofDto)
    (a : Int) (hmem : Effect.compressCall a ∈ (pipelineCore env dto).2) :
    a = amountOf dto.batchCount := by
  have hm2 := compressCall_not_mem_mintStage env
  have hp2 := compressCall_not_mem_poolStage env
  have hq2 := compressCall_not_mem_ataStage env
  rcases hms : mintStage env with ⟨ef1, r1⟩
  rw [hms] at hm2
  rcases hpl : poolStage env with ⟨ef2, r2⟩
  rw [hpl] at hp2
  rcases hat : ataStage env with ⟨ef3, r3⟩
  rw [hat] at hq2
  unfold pipelineCore at hmem
  rw [hms, hpl, hat] at hmem
  rcases r1 with code1 | ⟨mintPk, mto⟩
  · simp_all
  · rcases r2 with code2 | poolOpt
    · simp_all
    · rcases r3 with code3 | u
      · simp_all
      · rcases hcr : env.compressResult with e | cid <;> simp_all

/-! ### Concrete fixtures used by witnesses and counterexamples -/

/-- A ledger environment in which every step succeeds and a fresh mint is
created (no master mint is configured). -/
def envA : Env :=
  { payerSecret := some "payerSecret", masterMintPubkey := none,
    masterMintAuthoritySecret := none, txLookup := fun _ => true,
    generatedMintPk := "FreshMintPk",
    mintTxResult := .ok "mintTx1",
    poolsBefore := [{ poolId := 0, valid := true }],
    createPoolResult := .ok (), poolsAfter := [],
    ataMintResult := .ok (), compressResult := .ok "compressedTx1",
    memoResult := .ok "memoTx1" }

/-- A request whose claimed fingerprint is exactly the recomputed one
(the bytes field decodes to `[]`). -/
def dtoA : InitProofDto :=
  { txSignature := "sig1", txBytesBase58 := "",
    runtimeProofHash := recomputeRuntimeHash [] 7 (some "r1"),
    timestamp := 7, runtimeId := some "r1", userId := "walletUser1",
    batchCount := none }

theorem dtoA_decodes : base58Decode dtoA.txBytesBase58 = some [] := by decide

theorem dtoA_hash_ok :
    recomputeRuntimeHash [] dtoA.timestamp dtoA.runtimeId =
      dtoA.runtimeProofHash := rfl

/-! ### C1 -/

/-- C1: for every request, a `runtime_proofs` insert happens iff the
compression call was made and the ledger confirmed it with a compressed
transaction id; every failure-returning run performs no insert. -/
theorem claim1_persist_iff_compression (env : Env) (dto : InitProofDto) :
    ((∃ row, Effect.dbInsert row ∈ (runInitAndMint env dto).2) ↔
      ((∃ a, Effect.compressCall a ∈ (runInitAndMint env dto).2) ∧
        ∃ cid, env.compressResult = Except.ok cid)) ∧
    (∀ code, (runInitAndMint env dto).1 = .err code →
      ∀ row, Effect.dbInsert row ∉ (runInitAndMint env dto).2) := by
  rcases hp : env.payerSecret with _ | s
  · rw [runInit_noPayer env dto hp]; simp
  · cases hl : env.txLookup dto.txSignature
    · rw [runInit_txNotFound env dto s hp hl]; simp
    · rcases hd : base58Decode dto.txBytesBase58 with _ | bs
      · rw [runInit_badBase58 env dto s hp hl hd]; simp
      · by_cases hh : recomputeRuntimeHash bs dto.timestamp dto.runtimeId =
            dto.runtimeProofHash
        · rw [runInit_pass env dto s bs hp hl hd hh]
          have h := pipelineCore_char env dto
          simp only [List.mem_cons]
          constructor
          · constructor
            · rintro ⟨row, h1 | h1⟩
              · exact absurd h1 (by simp)
              · obtain ⟨⟨a, ha⟩, hcid⟩ := h.1.mp ⟨row, h1⟩
                exact ⟨⟨a, Or.inr ha⟩, hcid⟩
            · rintro ⟨⟨a, ha | ha⟩, hc⟩
              · exact absurd ha (by simp)
              · obtain ⟨row, hr⟩ := h.1.mpr ⟨⟨a, ha⟩, hc⟩
                exact ⟨row, Or.inr hr⟩
          · intro code hc row hmem
            rcases hmem with h1 | h1
            · exact absurd h1 (by simp)
            · exact h.2 code hc row h1
        · rw [runInit_mismatch env dto s bs hp hl hd hh]; simp

/-- Witness for C1 at a concrete environment and request. -/
theorem claim1_persist_iff_compression_witness :
    ((∃ row, Effect.dbInsert row ∈ (runInitAndMint envA dtoA).2) ↔
      ((∃ a, Effect.compressCall a ∈ (runInitAndMint envA dtoA).2) ∧
        ∃ cid, envA.compressResult = Except.ok cid)) ∧
    (∀ code, (runInitAndMint envA dtoA).1 = .err code →
      ∀ row, Effect.dbInsert row ∉ (runInitAndMint envA dtoA).2) :=
  claim1_persist_iff_compression envA dtoA

/-- The same request as `dtoA` but with a claimed fingerprint (the empty
string) that cannot be the recomputed hex digest. -/
def dtoBad : InitProofDto :=
  { txSignature := "sig1", txBytesBase58 := "", runtimeProofHash := "",
    timestamp := 7, runtimeId := some "r1", userId := "walletUser1",
    batchCount := none }

/-- Environment `envA` with a ledger on which no transaction is found. -/
def envNoTx : Env := { envA with txLookup := fun _ => false }

/-! ### C2 -/

/-- C2: the recomputed fingerprint is the hex SHA-256 of the decoded bytes
followed by the serialized "|ts:..|rid:.." suffix; recomputation is
deterministic; on mismatch `initAndMint` returns the
`RUNTIME_HASH_MISMATCH` error value instead of raising. -/
theorem claim2_runtime_hash :
    (∀ (txBytes : List Nat) (timestamp : Int) (runtimeId : Option String),
      recomputeRuntimeHash txBytes timestamp runtimeId =
        hexOfBytes (sha256 (txBytes ++ utf8Encode
          ("|ts:" ++ toString timestamp ++ "|rid:" ++ runtimeId.getD "")))) ∧
    (∀ (b1 b2 : List Nat) (t1 t2 : Int) (r1 r2 : Option String),
      b1 = b2 → t1 = t2 → r1 = r2 →
      recomputeRuntimeHash b1 t1 r1 = recomputeRuntimeHash b2 t2 r2) ∧
    (∀ (env : Env) (dto : InitProofDto) (s : String) (txBytes : List Nat),
      env.payerSecret = some s →
      env.txLookup dto.txSignature = true →
      base58Decode dto.txBytesBase58 = some txBytes →
      recomputeRuntimeHash txBytes dto.timestamp dto.runtimeId ≠
        dto.runtimeProofHash →
      (runInitAndMint env dto).1 = .err "RUNTIME_HASH_MISMATCH" ∧
      ∀ msg, (runInitAndMint env dto).1 ≠ .thrown msg) := by
  refine ⟨fun _ _ _ => rfl, ?_, ?_⟩
  · intro b1 b2 t1 t2 r1 r2 hb ht hr
    rw [hb, ht, hr]
  · intro env dto s txBytes hp hl hd hne
    rw [runInit_mismatch env dto s txBytes hp hl hd hne]
    exact ⟨rfl, fun msg => by simp⟩

/-- Witness for C2: a concrete request whose claimed hash mismatches is
rejected with the error value. -/
theorem claim2_runtime_hash_witness :
    recomputeRuntimeHash [] dtoBad.timestamp dtoBad.runtimeId ≠
      dtoBad.runtimeProofHash ∧
    (runInitAndMint envA dtoBad).1 = .err "RUNTIME_HASH_MISMATCH" := by
  have hne : recomputeRuntimeHash [] dtoBad.timestamp dtoBad.runtimeId ≠
      dtoBad.runtimeProofHash := by decide
  exact ⟨hne, (claim2_runtime_hash.2.2 envA dtoBad "payerSecret" [] rfl rfl
    (by decide) hne).1⟩

/-! ### C3 -/

/-- C3 counterexample: a request with a bad fingerprint does cause a ledger
transaction fetch — the transaction is read before the hash is verified,
contradicting the claimed Hash-Verifier-first ordering. -/
theorem claim3_counterexample :
    (runInitAndMint envA dtoBad).1 = .err "RUNTIME_HASH_MISMATCH" ∧
    Effect.readTransaction "sig1" ∈ (runInitAndMint envA dtoBad).2 := by
  have h := runInit_mismatch envA dtoBad "payerSecret" [] rfl rfl (by decide)
    (by decide)
  rw [h]
  exact ⟨rfl, by simp [dtoBad]⟩

/-- C3 (amended): the pipeline order is Ledger Transaction Reader, then
Hash Verifier, then Provisioner, Executor, Store, each step gated on the
previous one: an unknown transaction returns `TX_NOT_FOUND` with only the
ledger read performed, a bad hash stops after that same single read, and
a fully successful run performs its effects in exactly the
read/trees/mint/pool/ata/compress/memo/persist order. -/
theorem claim3_step_order :
    (∀ (env : Env) (dto : InitProofDto) (s : String),
      env.payerSecret = some s →
      env.txLookup dto.txSignature = false →
      runInitAndMint env dto =
        (.err "TX_NOT_FOUND", [.readTransaction dto.txSignature])) ∧
    (∀ (env : Env) (dto : InitProofDto) (s : String) (txBytes : List Nat),
      env.payerSecret = some s →
      env.txLookup dto.txSignature = true →
      base58Decode dto.txBytesBase58 = some txBytes →
      recomputeRuntimeHash txBytes dto.timestamp dto.runtimeId ≠
        dto.runtimeProofHash →
      runInitAndMint env dto =
        (.err "RUNTIME_HASH_MISMATCH", [.readTransaction dto.txSignature])) ∧
    (∀ (env : Env) (dto : InitProofDto) (s : String) (txBytes : List Nat)
        (mId : String) (p : Pool) (cId : String),
      env.payerSecret = some s →
      env.txLookup dto.txSignature = true →
      base58Decode dto.txBytesBase58 = some txBytes →
      recomputeRuntimeHash txBytes dto.timestamp dto.runtimeId =
        dto.runtimeProofHash →
      env.masterMintPubkey = none →
      env.mintTxResult = .ok mId →
      selectTokenPoolInfo env.poolsBefore = some p →
      (ataStage env).2 = Except.ok () →
      env.compressResult = .ok cId →
      runInitAndMint env dto =
        (.ok (mkPayload dto env.generatedMintPk mId cId),
         [.readTransaction dto.txSignature, .getStateTrees, .getRent,
          .getBlockhash, .submitTx "mint", .getPools, .getBlockhash,
          .submitTx "ataMint", .compressCall (amountOf dto.batchCount),
          .getBlockhash, .submitTx "memo", .dbEnsureTable,
          .dbInsert (mkRow dto env.generatedMintPk mId cId)])) := by
  refine ⟨fun env dto s hp hl => runInit_txNotFound env dto s hp hl,
    fun env dto s txBytes hp hl hd hne =>
      runInit_mismatch env dto s txBytes hp hl hd hne, ?_⟩
  intro env dto s txBytes mId p cId hp hl hd hh hm hmt hpb hat hcr
  rw [runInit_pass env dto s txBytes hp hl hd hh,
    pipelineCore_success_fresh env dto mId p cId hm hmt hpb hat hcr]

/-- Witness for C3 (amended) at concrete environments: an unknown
transaction, a mismatching fingerprint, and a fully successful run. -/
theorem claim3_step_order_witness :
    runInitAndMint envNoTx dtoA =
      (.err "TX_NOT_FOUND", [.readTransaction "sig1"]) ∧
    runInitAndMint envA dtoBad =
      (.err "RUNTIME_HASH_MISMATCH", [.readTransaction "sig1"]) ∧
    runInitAndMint envA dtoA =
      (.ok (mkPayload dtoA "FreshMintPk" "mintTx1" "compressedTx1"),
       [.readTransaction "sig1", .getStateTrees, .getRent, .getBlockhash,
        .submitTx "mint", .getPools, .getBlockhash, .submitTx "ataMint",
        .compressCall 1, .getBlockhash, .submitTx "memo", .dbEnsureTable,
        .dbInsert (mkRow dtoA "FreshMintPk" "mintTx1" "compressedTx1")]) :=
  ⟨claim3_step_order.1 envNoTx dtoA "payerSecret" rfl rfl,
   claim3_step_order.2.1 envA dtoBad "payerSecret" [] rfl rfl (by decide)
     (by decide),
   claim3_step_order.2.2 envA dtoA "payerSecret" [] "mintTx1"
     { poolId := 0, valid := true } "compressedTx1" rfl rfl
     (by decide) dtoA_hash_ok rfl rfl (by decide) rfl rfl⟩

/-! ### C4 -/

/-- C4: the token amount handed to the compression step is `batchCount`
clamped to [1,50] with default 1; in particular 0 and -5 clamp to 1,
50 stays 50, and 51 and 1000 clamp to 50. -/
theorem claim4_amount_clamped :
    (∀ bc : Option Int, 1 ≤ amountOf bc ∧ amountOf bc ≤ 50) ∧
    amountOf (some 0) = 1 ∧ amountOf (some (-5)) = 1 ∧ amountOf none = 1 ∧
    amountOf (some 50) = 50 ∧ amountOf (some 51) = 50 ∧
    amountOf (some 1000) = 50 ∧
    (∀ (env : Env) (dto : InitProofDto) (a : Int),
      Effect.compressCall a ∈ (runInitAndMint env dto).2 →
      a = amountOf dto.batchCount) := by
  refine ⟨?_, by decide, by decide, by decide, by decide, by decide, by decide, ?_⟩
  · intro bc
    unfold amountOf
    constructor
    · exact le_max_left 1 _
    · exact max_le (by norm_num) (min_le_left 50 _)
  · intro env dto a hmem
    rcases hp : env.payerSecret with _ | s
    · rw [runInit_noPayer env dto hp] at hmem
      simp at hmem
    · cases hl : env.txLookup dto.txSignature
      · rw [runInit_txNotFound env dto s hp hl] at hmem
        simp at hmem
      · rcases hd : base58Decode dto.txBytesBase58 with _ | bs
        · rw [runInit_badBase58 env dto s hp hl hd] at hmem
          simp at hmem
        · by_cases hh : recomputeRuntimeHash bs dto.timestamp dto.runtimeId =
              dto.runtimeProofHash
          · rw [runInit_pass env dto s bs hp hl hd hh] at hmem
            rcases List.mem_cons.mp hmem with h1 | h1
            · exact absurd h1 (by simp)
            · exact pipelineCore_compressCall_amount env dto a h1
          · rw [runInit_mismatch env dto s bs hp hl hd hh] at hmem
            simp at hmem

/-- Witness for C4: the clamp bounds at a concrete batch count, and the
concrete successful run's compress call carries the clamped amount. -/
theorem claim4_amount_clamped_witness :
    (1 ≤ amountOf (some 7) ∧ amountOf (some 7) ≤ 50) ∧
    (Effect.compressCall 1 ∈ (runInitAndMint envA dtoA).2 →
      (1 : Int) = amountOf dtoA.batchCount) :=
  ⟨claim4_amount_clamped.1 (some 7),
   claim4_amount_clamped.2.2.2.2.2.2.2 envA dtoA 1⟩

/-! ### C5 -/

/-- A valid pool listed by the provider in the fixtures. -/
def pool0 : Pool := { poolId := 0, valid := true }

/-- A ledger rejection whose diagnostics cannot be retrieved. -/
def ataErrNoLogs : LedgerErr := { message := "boom", logs := none }

/-- A ledger rejection with retrieved but unrecognized diagnostics. -/
def ataErrBadLogs : LedgerErr :=
  { message := "boom", logs := some ["unexpected failure"] }

/-- Environment `envA` with the combined ATA-creation-plus-mint transaction rejected
and no retrievable diagnostics. -/
def envAtaNoLogs : Env := { envA with ataMintResult := .error ataErrNoLogs }

/-- C5 counterexample: an ATA/mint rejection whose diagnostics cannot be
retrieved is NOT treated as fatal — the concrete run proceeds to a
successful compression and returns ok, contradicting the claim that such
rejections return `PREPARE_ATA_OR_MINT_FAILED`. -/
theorem claim5_counterexample :
    envAtaNoLogs.ataMintResult = .error ataErrNoLogs ∧
    ataErrNoLogs.logs = none ∧
    (runInitAndMint envAtaNoLogs dtoA).1 =
      .ok (mkPayload dtoA "FreshMintPk" "mintTx1" "compressedTx1") := by
  refine ⟨rfl, rfl, ?_⟩
  rw [runInit_pass envAtaNoLogs dtoA "payerSecret" [] rfl rfl (by decide)
      dtoA_hash_ok,
    pipelineCore_success_fresh envAtaNoLogs dtoA "mintTx1" pool0
      "compressedTx1" rfl rfl rfl rfl rfl]
  rfl

/-- C5 (amended): a rejection of the combined holding-account-plus-mint
transaction is a successful no-op exactly when either its retrieved
diagnostic text matches the closed benign set ("already in use", the
zero-code custom program error, "Account already initialized",
case-insensitively) or its diagnostics cannot be retrieved at all; it is
fatal (`PREPARE_ATA_OR_MINT_FAILED`) exactly when diagnostics were
retrieved and match none of the benign signatures, so unrecognized
retrieved diagnostics are never treated as benign. -/
theorem claim5_ata_rejection_classified :
    (∀ s, isExpectedAtaError s =
      (containsCI s "already in use" ||
       containsCI s "custom program error: 0x0" ||
       containsCI s "Account already initialized")) ∧
    (∀ (env : Env) (e : LedgerErr) (logLines : List String),
      env.ataMintResult = .error e → e.logs = some logLines →
      isExpectedAtaError (String.intercalate "\n" logLines) = false →
      (ataStage env).2 = Except.error "PREPARE_ATA_OR_MINT_FAILED") ∧
    (∀ (env : Env) (e : LedgerErr) (logLines : List String),
      env.ataMintResult = .error e → e.logs = some logLines →
      isExpectedAtaError (String.intercalate "\n" logLines) = true →
      (ataStage env).2 = Except.ok ()) ∧
    (∀ (env : Env) (e : LedgerErr),
      env.ataMintResult = .error e → e.logs = none →
      (ataStage env).2 = Except.ok ()) ∧
    (∀ (env : Env) (dto : InitProofDto) (s : String) (txBytes : List Nat)
        (ef1 : List Effect) (mintPk : String) (mto : Option String) (p : Pool)
        (e : LedgerErr) (logLines : List String),
      env.payerSecret = some s →
      env.txLookup dto.txSignature = true →
      base58Decode dto.txBytesBase58 = some txBytes →
      recomputeRuntimeHash txBytes dto.timestamp dto.runtimeId =
        dto.runtimeProofHash →
      mintStage env = (ef1, .ok (mintPk, mto)) →
      selectTokenPoolInfo env.poolsBefore = some p →
      env.ataMintResult = .error e → e.logs = some logLines →
      isExpectedAtaError (String.intercalate "\n" logLines) = false →
      (runInitAndMint env dto).1 = .err "PREPARE_ATA_OR_MINT_FAILED") := by
  refine ⟨fun s => rfl, ?_, ?_, ?_, ?_⟩
  · intro env e logLines hat hlg hcl
    simp [ataStage, hat, hlg, hcl]
  · intro env e logLines hat hlg hcl
    simp [ataStage, hat, hlg, hcl]
  · intro env e hat hlg
    simp [ataStage, hat, hlg]
  · intro env dto s txBytes ef1 mintPk mto p e logLines hp hl hd hh hms hpb hat
      hlg hcl
    rw [runInit_pass env dto s txBytes hp hl hd hh,
      pipelineCore_ata_failed env dto ef1 mintPk mto p e logLines hms hpb hat
        hlg hcl]

/-- Environment `envA` with the ATA/mint transaction rejected with retrieved,
unrecognized diagnostics. -/
def envAtaBadLogs : Env := { envA with ataMintResult := .error ataErrBadLogs }

/-- Witness for C5 (amended): the three classifier branches at concrete
rejections, and the concrete fatal pipeline outcome. -/
theorem claim5_ata_rejection_classified_witness :
    isExpectedAtaError "unexpected failure" = false ∧
    (ataStage envAtaBadLogs).2 = Except.error "PREPARE_ATA_OR_MINT_FAILED" ∧
    (ataStage envAtaNoLogs).2 = Except.ok () ∧
    (runInitAndMint envAtaBadLogs dtoA).1 =
      .err "PREPARE_ATA_OR_MINT_FAILED" := by
  refine ⟨by decide, ?_, ?_, ?_⟩
  · exact claim5_ata_rejection_classified.2.1 envAtaBadLogs ataErrBadLogs
      ["unexpected failure"] rfl rfl (by decide)
  · exact claim5_ata_rejection_classified.2.2.2.1 envAtaNoLogs ataErrNoLogs
      rfl rfl
  · exact claim5_ata_rejection_classified.2.2.2.2 envAtaBadLogs dtoA
      "payerSecret" [] [.getRent, .getBlockhash, .submitTx "mint"]
      "FreshMintPk" (some "mintTx1") pool0 ataErrBadLogs
      ["unexpected failure"] rfl rfl (by decide) dtoA_hash_ok rfl rfl
      rfl rfl (by decide)

/-! ### C6 -/

/-- The rejection the racing provisioner receives for its creation
transaction. -/
def poolRaceErr : LedgerErr := { message := "already created", logs := none }

/-- The valid pool visible on the post-failure listing. -/
def pool5 : Pool := { poolId := 5, valid := true }

/-- Environment `envA` racing scenario: no pool exists at first query, the creation
transaction is rejected (another provisioner won), and a valid pool would
be visible on re-query. -/
def envPoolRace : Env :=
  { envA with
    poolsBefore := [],
    createPoolResult := .error poolRaceErr,
    poolsAfter := [pool5] }

/-- C6 counterexample: when the pool-creation transaction is rejected
because the pool now exists (it is visible on the post-failure listing),
the pipeline still returns `CREATE_POOL_FAILED` instead of re-querying
and adopting the existing pool. -/
theorem claim6_counterexample :
    selectTokenPoolInfo envPoolRace.poolsAfter = some pool5 ∧
    (runInitAndMint envPoolRace dtoA).1 = .err "CREATE_POOL_FAILED" := by
  refine ⟨by decide, ?_⟩
  rw [runInit_pass envPoolRace dtoA "payerSecret" [] rfl rfl (by decide)
      dtoA_hash_ok,
    pipelineCore_pool_failed envPoolRace dtoA
      [.getRent, .getBlockhash, .submitTx "mint"] "FreshMintPk"
      (some "mintTx1") poolRaceErr rfl rfl rfl]

/-- C6 (amended): pool provisioning is query-before-create — an existing
valid pool is adopted with no creation transaction, and after a confirmed
creation the re-query returns the new pool, so two sequential calls leave
exactly one pool and both return a handle to it; but every rejected
creation transaction — including one rejected because a concurrent
provisioner already created the pool — is fatal `CREATE_POOL_FAILED`
without any re-query. -/
theorem claim6_pool_provisioning :
    (∀ (createRes : Except LedgerErr Unit) (newPool : Pool)
        (pools : List Pool) (p : Pool),
      selectTokenPoolInfo pools = some p →
      ensurePool createRes newPool pools = (.ok (some p), pools, false)) ∧
    (∀ (newPool : Pool) (createRes2 : Except LedgerErr Unit),
      newPool.valid = true →
      ensurePool (.ok ()) newPool [] = (.ok (some newPool), [newPool], true) ∧
      [newPool].length = 1 ∧
      ensurePool createRes2 newPool [newPool] =
        (.ok (some newPool), [newPool], false)) ∧
    (∀ (e : LedgerErr) (newPool : Pool) (pools : List Pool),
      selectTokenPoolInfo pools = none →
      (ensurePool (.error e) newPool pools).1 = .error "CREATE_POOL_FAILED") ∧
    (∀ (env : Env) (dto : InitProofDto) (ef1 : List Effect) (mintPk : String)
        (mto : Option String) (e : LedgerErr),
      mintStage env = (ef1, .ok (mintPk, mto)) →
      selectTokenPoolInfo env.poolsBefore = none →
      env.createPoolResult = .error e →
      (pipelineCore env dto).1 = .err "CREATE_POOL_FAILED") := by
  refine ⟨?_, ?_, ?_, ?_⟩
  · intro createRes newPool pools p hsel
    simp [ensurePool, hsel]
  · intro newPool createRes2 hvalid
    refine ⟨?_, rfl, ?_⟩
    · simp [ensurePool, selectTokenPoolInfo, hvalid]
    · simp [ensurePool, selectTokenPoolInfo, hvalid]
  · intro e newPool pools hsel
    simp [ensurePool, hsel]
  · intro env dto ef1 mintPk mto e hms hpb hcp
    rw [pipelineCore_pool_failed env dto ef1 mintPk mto e hms hpb hcp]

/-- The pool created by the witness's sequential provisioning calls. -/
def pool9 : Pool := { poolId := 9, valid := true }

/-- Witness for C6 (amended) at concrete pools and the concrete racing
environment. -/
theorem claim6_pool_provisioning_witness :
    ensurePool (.ok ()) pool9 [] = (.ok (some pool9), [pool9], true) ∧
    ensurePool (.ok ()) pool9 [pool9] = (.ok (some pool9), [pool9], false) ∧
    (pipelineCore envPoolRace dtoA).1 = .err "CREATE_POOL_FAILED" :=
  ⟨(claim6_pool_provisioning.2.1 pool9 (.ok ()) rfl).1,
   (claim6_pool_provisioning.2.1 pool9 (.ok ()) rfl).2.2,
   claim6_pool_provisioning.2.2.2 envPoolRace dtoA
     [.getRent, .getBlockhash, .submitTx "mint"] "FreshMintPk"
     (some "mintTx1") poolRaceErr rfl rfl rfl⟩

/-! ### C7 -/

/-- Correspondence between a persisted row, the request, and the returned
payload: every persisted field matches the returned metadata (the row
keeps an absent `runtimeId` as NULL while the payload reports it as the
empty string, both reflecting `dto.runtimeId`). -/
def rowMatches (row : ProofRow) (dto : InitProofDto) (payload : OkPayload) :
    Prop :=
  row.txSignature = dto.txSignature ∧
  row.txSignature = payload.metaTxHash ∧
  row.txBytesBase58 = dto.txBytesBase58 ∧
  row.runtimeProofHash = dto.runtimeProofHash ∧
  row.runtimeProofHash = payload.metaRuntimeProofHash ∧
  row.userId = dto.userId ∧
  row.userId = payload.metaUserId ∧
  row.runtimeId = dto.runtimeId ∧
  payload.metaRuntimeId = dto.runtimeId.getD "" ∧
  row.timestampMs = dto.timestamp ∧
  row.timestampMs = payload.metaTimestamp ∧
  row.mintAddress = payload.mint ∧
  row.mintTxId = payload.mintTxId ∧
  row.compressedTxId = payload.compressedTxId ∧
  row.chain = "solana" ∧
  row.chain = payload.metaChain

/-- C7: a valid request (transaction found, hash verifies) with no master
mint and all ledger steps succeeding returns ok with the freshly generated
mint, the non-empty fresh-mint and compression transaction ids, and
inserts a row whose fields match the returned payload; with a master mint
adopted, the persisted and returned `mintTxId` is the empty string. -/
theorem claim7_success_payload_and_row :
    (∀ (env : Env) (dto : InitProofDto) (s : String) (txBytes : List Nat)
        (mId : String) (p : Pool) (cId : String),
      env.payerSecret = some s →
      env.txLookup dto.txSignature = true →
      base58Decode dto.txBytesBase58 = some txBytes →
      recomputeRuntimeHash txBytes dto.timestamp dto.runtimeId =
        dto.runtimeProofHash →
      env.masterMintPubkey = none →
      env.mintTxResult = .ok mId → mId ≠ "" →
      selectTokenPoolInfo env.poolsBefore = some p →
      (ataStage env).2 = Except.ok () →
      env.compressResult = .ok cId → cId ≠ "" →
      (runInitAndMint env dto).1 =
        .ok (mkPayload dto env.generatedMintPk mId cId) ∧
      (mkPayload dto env.generatedMintPk mId cId).mint =
        env.generatedMintPk ∧
      (mkPayload dto env.generatedMintPk mId cId).mintTxId ≠ "" ∧
      (mkPayload dto env.generatedMintPk mId cId).compressedTxId ≠ "" ∧
      Effect.dbInsert (mkRow dto env.generatedMintPk mId cId) ∈
        (runInitAndMint env dto).2 ∧
      rowMatches (mkRow dto env.generatedMintPk mId cId) dto
        (mkPayload dto env.generatedMintPk mId cId)) ∧
    (∀ (env : Env) (dto : InitProofDto) (s : String) (txBytes : List Nat)
        (mpk asec : String) (p : Pool) (cId : String),
      env.payerSecret = some s →
      env.txLookup dto.txSignature = true →
      base58Decode dto.txBytesBase58 = some txBytes →
      recomputeRuntimeHash txBytes dto.timestamp dto.runtimeId =
        dto.runtimeProofHash →
      env.masterMintPubkey = some mpk →
      env.masterMintAuthoritySecret = some asec →
      selectTokenPoolInfo env.poolsBefore = some p →
      (ataStage env).2 = Except.ok () →
      env.compressResult = .ok cId →
      (runInitAndMint env dto).1 = .ok (mkPayload dto mpk "" cId) ∧
      (mkPayload dto mpk "" cId).mintTxId = "" ∧
      Effect.dbInsert (mkRow dto mpk "" cId) ∈ (runInitAndMint env dto).2 ∧
      (mkRow dto mpk "" cId).mintTxId = "") := by
  constructor
  · intro env dto s txBytes mId p cId hp hl hd hh hm hmt hmId hpb hat hcr hcId
    rw [runInit_pass env dto s txBytes hp hl hd hh,
      pipelineCore_success_fresh env dto mId p cId hm hmt hpb hat hcr]
    exact ⟨rfl, rfl, hmId, hcId, by simp,
      ⟨rfl, rfl, rfl, rfl, rfl, rfl, rfl, rfl, rfl, rfl, rfl, rfl, rfl, rfl,
       rfl, rfl⟩⟩
  · intro env dto s txBytes mpk asec p cId hp hl hd hh hm ha hpb hat hcr
    rw [runInit_pass env dto s txBytes hp hl hd hh,
      pipelineCore_success_master env dto mpk asec p cId hm ha hpb hat hcr]
    exact ⟨rfl, rfl, by simp, rfl⟩

/-- Environment `envA` with a master mint configured together with its mint-authority
credential. -/
def envMaster : Env :=
  { envA with
    masterMintPubkey := some "MasterMint",
    masterMintAuthoritySecret := some "masterAuthSecret" }

/-- Witness for C7: the concrete fresh-mint success run and the concrete
master-mint run with empty `mintTxId`. -/
theorem claim7_success_payload_and_row_witness :
    ((runInitAndMint envA dtoA).1 =
      .ok (mkPayload dtoA "FreshMintPk" "mintTx1" "compressedTx1") ∧
     Effect.dbInsert (mkRow dtoA "FreshMintPk" "mintTx1" "compressedTx1") ∈
       (runInitAndMint envA dtoA).2) ∧
    ((runInitAndMint envMaster dtoA).1 =
      .ok (mkPayload dtoA "MasterMint" "" "compressedTx1") ∧
     (mkRow dtoA "MasterMint" "" "compressedTx1").mintTxId = "") := by
  have h1 := claim7_success_payload_and_row.1 envA dtoA "payerSecret" []
    "mintTx1" pool0 "compressedTx1" rfl rfl (by decide) dtoA_hash_ok rfl rfl
    (by decide) rfl rfl rfl (by decide)
  have h2 := claim7_success_payload_and_row.2 envMaster dtoA "payerSecret" []
    "MasterMint" "masterAuthSecret" pool0 "compressedTx1" rfl rfl (by decide)
    dtoA_hash_ok rfl rfl rfl rfl rfl
  exact ⟨⟨h1.1, h1.2.2.2.2.1⟩, ⟨h2.1, h2.2.2.2⟩⟩

/-! ### C8 -/

/-- C8: with a master mint configured but the mint-authority credential
absent, an otherwise valid request fails with `MINT_AUTHORITY_MISSING`
after only the ledger read and state-tree query — no transaction is ever
submitted to the ledger. -/
theorem claim8_authority_missing (env : Env) (dto : InitProofDto)
    (s : String) (txBytes : List Nat) (mpk : String)
    (hp : env.payerSecret = some s)
    (hl : env.txLookup dto.txSignature = true)
    (hd : base58Decode dto.txBytesBase58 = some txBytes)
    (hh : recomputeRuntimeHash txBytes dto.timestamp dto.runtimeId =
      dto.runtimeProofHash)
    (hm : env.masterMintPubkey = some mpk)
    (ha : env.masterMintAuthoritySecret = none) :
    (runInitAndMint env dto).1 = .err "MINT_AUTHORITY_MISSING" ∧
    (runInitAndMint env dto).2 =
      [.readTransaction dto.txSignature, .getStateTrees] ∧
    (runInitAndMint env dto).2.filter (fun e => e.isSubmission) = [] := by
  rw [runInit_pass env dto s txBytes hp hl hd hh,
    pipelineCore_authority_missing env dto mpk hm ha]
  exact ⟨rfl, rfl, rfl⟩

/-- Environment `envA` with a master mint configured but no mint-authority secret. -/
def envMasterNoAuth : Env :=
  { envA with masterMintPubkey := some "MasterMint" }

/-- Witness for C8 at the concrete master-mint-without-authority
environment. -/
theorem claim8_authority_missing_witness :
    (runInitAndMint envMasterNoAuth dtoA).1 = .err "MINT_AUTHORITY_MISSING" ∧
    (runInitAndMint envMasterNoAuth dtoA).2 =
      [.readTransaction "sig1", .getStateTrees] ∧
    (runInitAndMint envMasterNoAuth dtoA).2.filter
      (fun e => e.isSubmission) = [] :=
  claim8_authority_missing envMasterNoAuth dtoA "payerSecret" []
    "MasterMint" rfl rfl (by decide) dtoA_hash_ok rfl rfl

/-! ### C9 -/

/-- Newest-first order on stored rows (descending `created_at`). -/
def DescByCreatedAt (a b : StoredRow) : Prop := b.createdAt ≤ a.createdAt

theorem mem_insertDescBy {r y : StoredRow} {l : List StoredRow}
    (h : y ∈ insertDescBy r l) : y = r ∨ y ∈ l := by
  induction l with
  | nil =>
    simp [insertDescBy] at h
    exact Or.inl h
  | cons x xs ih =>
    unfold insertDescBy at h
    by_cases hc : r.createdAt ≤ x.createdAt
    · rw [if_pos hc] at h
      rcases List.mem_cons.mp h with h1 | h1
      · exact Or.inr (List.mem_cons.mpr (Or.inl h1))
      · rcases ih h1 with h2 | h2
        · exact Or.inl h2
        · exact Or.inr (List.mem_cons.mpr (Or.inr h2))
    · rw [if_neg hc] at h
      rcases List.mem_cons.mp h with h1 | h1
      · exact Or.inl h1
      · exact Or.inr h1

theorem pairwise_insertDescBy (r : StoredRow) (l : List StoredRow)
    (h : l.Pairwise DescByCreatedAt) :
    (insertDescBy r l).Pairwise DescByCreatedAt := by
  induction l with
  | nil => simp [insertDescBy]
  | cons x xs ih =>
    rcases List.pairwise_cons.mp h with ⟨hx, hxs⟩
    unfold insertDescBy
    by_cases hc : r.createdAt ≤ x.createdAt
    · rw [if_pos hc]
      refine List.pairwise_cons.mpr ⟨?_, ih hxs⟩
      intro y hy
      rcases mem_insertDescBy hy with h1 | h1
      · rw [h1]; exact hc
      · exact hx y h1
    · rw [if_neg hc]
      refine List.pairwise_cons.mpr ⟨?_, h⟩
      intro y hy
      rcases List.mem_cons.mp hy with h1 | h1
      · rw [h1]; exact le_of_not_le hc
      · exact le_trans (hx y h1) (le_of_not_le hc)

theorem sortByCreatedAtDesc_pairwise (l : List StoredRow) :
    (sortByCreatedAtDesc l).Pairwise DescByCreatedAt := by
  induction l with
  | nil => simp [sortByCreatedAtDesc]
  | cons x xs ih => exact pairwise_insertDescBy x _ ih

theorem perm_insertDescBy (r : StoredRow) (l : List StoredRow) :
    List.Perm (insertDescBy r l) (r :: l) := by
  induction l with
  | nil => exact List.Perm.refl _
  | cons x xs ih =>
    unfold insertDescBy
    by_cases hc : r.createdAt ≤ x.createdAt
    · rw [if_pos hc]
      exact (ih.cons x).trans (List.Perm.swap r x xs)
    · rw [if_neg hc]

theorem sortByCreatedAtDesc_perm (l : List StoredRow) :
    List.Perm (sortByCreatedAtDesc l) l := by
  induction l with
  | nil => exact List.Perm.refl _
  | cons x xs ih => exact (perm_insertDescBy x _).trans (ih.cons x)

/-- A persisted row of the retrieval fixtures. -/
def wallet20 : String := "aaaaaaaaaaaaaaaaaaaa"

def baseRow : ProofRow :=
  { txSignature := "s", txBytesBase58 := "", runtimeProofHash := "h",
    userId := wallet20, runtimeId := none, timestampMs := 0,
    mintAddress := "m", mintTxId := "", compressedTxId := "c",
    chain := "solana" }

def srow1 : StoredRow := { row := baseRow, createdAt := 1 }

def srow2 : StoredRow := { row := baseRow, createdAt := 2 }

def srow3 : StoredRow := { row := baseRow, createdAt := 3 }

/-- Three rows persisted at times 1 < 2 < 3 for the same user. -/
def db3 : List StoredRow := [srow1, srow2, srow3]

/-- C9: every wallet shorter than 20 characters is rejected with
`INVALID_WALLET`; a wallet of length at least 20 yields ok with the
caller's rows newest first (descending `created_at`), capped at 200, the
empty list when the user has none; rows persisted at t1 < t2 < t3 come
back in order t3, t2, t1. -/
theorem claim9_retrieve_contract :
    (∀ (db : List StoredRow) (w : String), w.length < 20 →
      retrieve (some w) db = .badRequest "INVALID_WALLET") ∧
    (∀ db : List StoredRow, retrieve none db = .badRequest "INVALID_WALLET") ∧
    (∀ (db : List StoredRow) (w : String), 20 ≤ w.length →
      retrieve (some w) db = .ok (retrieveProofsByUser db w) ∧
      retrieveProofsByUser db w =
        (sortByCreatedAtDesc
          (db.filter (fun r => r.row.userId == w))).take 200 ∧
      (retrieveProofsByUser db w).Pairwise DescByCreatedAt ∧
      (retrieveProofsByUser db w).length ≤ 200 ∧
      List.Perm (sortByCreatedAtDesc (db.filter (fun r => r.row.userId == w)))
        (db.filter (fun r => r.row.userId == w)) ∧
      (db.filter (fun r => r.row.userId == w) = [] →
        retrieveProofsByUser db w = [])) ∧
    retrieve (some wallet20) db3 = .ok [srow3, srow2, srow1] := by
  refine ⟨?_, fun db => rfl, ?_, by decide⟩
  · intro db w hw
    simp [retrieve, hw]
  · intro db w hw
    refine ⟨?_, rfl, ?_, ?_, sortByCreatedAtDesc_perm _, ?_⟩
    · simp [retrieve, Nat.not_lt.mpr hw]
    · exact List.Pairwise.sublist (List.take_sublist 200 _)
        (sortByCreatedAtDesc_pairwise _)
    · exact List.length_take_le 200 _
    · intro h
      unfold retrieveProofsByUser
      rw [h]
      rfl

/-- Witness for C9: a concrete short wallet rejected, and the concrete
three-row retrieval. -/
theorem claim9_retrieve_contract_witness :
    ("short".length < 20 ∧
      retrieve (some "short") db3 = .badRequest "INVALID_WALLET") ∧
    (20 ≤ wallet20.length ∧
      retrieve (some wallet20) db3 = .ok (retrieveProofsByUser db3 wallet20)) :=
  ⟨⟨by decide, claim9_retrieve_contract.1 db3 "short" (by decide)⟩,
   ⟨by decide,
    (claim9_retrieve_contract.2.2.1 db3 wallet20 (by decide)).1⟩⟩

/-! ### C10 -/

theorem hexDigit_mem (n : Nat) : hexDigit n ∈ hexAlphabet := by
  unfold hexDigit
  have h : n % 16 < 16 := Nat.mod_lt _ (by norm_num)
  have hall : ∀ m, m < 16 → hexAlphabet.getD m '0' ∈ hexAlphabet := by decide
  exact hall _ h

theorem hexOfBytes_chars (bs : List Nat) :
    ∀ c ∈ (hexOfBytes bs).toList, c ∈ hexAlphabet := by
  intro c hc
  have h0 : (hexOfBytes bs).toList =
      ((bs.map (fun b => [hexDigit (b / 16), hexDigit b])).flatten) := rfl
  rw [h0] at hc
  rcases List.mem_flatten.mp hc with ⟨l, hl, hcl⟩
  rcases List.mem_map.mp hl with ⟨b, _, hb⟩
  rw [← hb] at hcl
  rcases List.mem_cons.mp hcl with h1 | h1
  · rw [h1]; exact hexDigit_mem _
  · rcases List.mem_cons.mp h1 with h2 | h2
    · rw [h2]; exact hexDigit_mem _
    · exact absurd h2 (List.not_mem_nil c)

theorem recomputeRuntimeHash_chars (txBytes : List Nat) (t : Int)
    (rid : Option String) :
    ∀ c ∈ (recomputeRuntimeHash txBytes t rid).toList, c ∈ hexAlphabet :=
  hexOfBytes_chars _

/-- C10: the recomputed fingerprint is always lowercase hex, the
comparison with the caller's hash is exact case-sensitive string
equality, so any claimed hash containing an uppercase hex character is
rejected with `RUNTIME_HASH_MISMATCH`. -/
theorem claim10_lowercase_hash_comparison :
    (∀ (txBytes : List Nat) (t : Int) (rid : Option String),
      ∀ c ∈ (recomputeRuntimeHash txBytes t rid).toList, c ∈ hexAlphabet) ∧
    (∀ (env : Env) (dto : InitProofDto) (s : String) (txBytes : List Nat),
      env.payerSecret = some s →
      env.txLookup dto.txSignature = true →
      base58Decode dto.txBytesBase58 = some txBytes →
      (∃ c ∈ dto.runtimeProofHash.toList, 'A' ≤ c ∧ c ≤ 'F') →
      (runInitAndMint env dto).1 = .err "RUNTIME_HASH_MISMATCH") := by
  refine ⟨recomputeRuntimeHash_chars, ?_⟩
  intro env dto s txBytes hp hl hd hup
  rcases hup with ⟨c, hc, hcA, hcF⟩
  have hne : recomputeRuntimeHash txBytes dto.timestamp dto.runtimeId ≠
      dto.runtimeProofHash := by
    intro heq
    rw [← heq] at hc
    have hmem := recomputeRuntimeHash_chars txBytes dto.timestamp
      dto.runtimeId c hc
    have hnotup : ∀ d ∈ hexAlphabet, ¬('A' ≤ d ∧ d ≤ 'F') := by decide
    exact hnotup c hmem ⟨hcA, hcF⟩
  rw [runInit_mismatch env dto s txBytes hp hl hd hne]

/-- A request whose claimed hash is uppercase hex. -/
def dtoUpper : InitProofDto :=
  { txSignature := "sig1", txBytesBase58 := "", runtimeProofHash := "ABCDEF",
    timestamp := 7, runtimeId := some "r1", userId := "walletUser1",
    batchCount := none }

/-- Witness for C10: a concrete uppercase claimed hash is rejected. -/
theorem claim10_lowercase_hash_comparison_witness :
    (∃ c ∈ dtoUpper.runtimeProofHash.toList, 'A' ≤ c ∧ c ≤ 'F') ∧
    (runInitAndMint envA dtoUpper).1 = .err "RUNTIME_HASH_MISMATCH" :=
  ⟨⟨'A', by decide, by decide, by decide⟩,
   claim10_lowercase_hash_comparison.2 envA dtoUpper "payerSecret" [] rfl rfl
     (by decide) ⟨'A', by decide, by decide, by decide⟩⟩

end Velane
